import Mathlib

/-!
Shallow embedding of the Geometry-Wars-style shooter core of the
`limax84/geometric-life` repository, together with proofs about the
power-up ledger, score multiplier, wave generator, collision pass,
snake/splitter enemies, spawner and secret cache.

Conventions of the embedding:
* JavaScript numbers are modelled as `ℚ` (all gameplay-relevant arithmetic
  in the embedded code is exact on rationals); counters are `ℕ`.
* `Map`/`Set` contents are modelled as functions to `Option`/`Bool`
  (iteration order of the source maps never affects the embedded results).
* `Infinity` (used for perpetual power-up timers) is modelled by the
  dedicated type `JTime` with an `inf` constructor.
* Transcendental functions (`Math.cos`, `Math.sin`, `Math.atan2`,
  `Math.sqrt`, `Math.PI`, `Math.random`, `performance.now`) do not exist on
  `ℚ`; where the embedded code uses them they are taken as explicit
  function/value parameters, so every theorem below holds for any
  interpretation of them.  The one systematic exception: the source
  compares Euclidean distances `Math.sqrt(dx*dx+dy*dy) < r` against
  nonnegative radii, which is embedded sqrt-free as `dx^2+dy^2 < r^2`
  (equivalent whenever `0 ≤ r`, which holds for every radius in the game).
-/

/-- 2D vector `{x, y}` (src/game/types.ts, utils/Vector2.ts). -/
structure Vec where
  x : ℚ
  y : ℚ
deriving DecidableEq, Repr

/-- Squared Euclidean distance between two points.  The source computes
`distance(a,b) = Math.sqrt(dx*dx+dy*dy)`; all comparisons in the embedded
code are against nonnegative bounds, so the squared form is used. -/
def distSq (a b : Vec) : ℚ :=
  (a.x - b.x) ^ 2 + (a.y - b.y) ^ 2

/-! ### Power-up ledger (src/game/entities/PowerUp.ts, class PlayerPowerUpState) -/

/-- The eight power-up types of `PowerUpType`. -/
inductive PowerUpType where
  | shield | rapidFire | spreadShot | speedBoost | piercing | doubleShot | extraLife | bomb
deriving DecidableEq, Repr

/-- A JavaScript time value: either `Infinity` (perpetual entries) or a
finite number of seconds. -/
inductive JTime where
  | inf
  | fin (t : ℚ)
deriving DecidableEq, Repr

/-- `t + d` on JS numbers (`Infinity + d = Infinity`). -/
def JTime.addQ : JTime → ℚ → JTime
  | .inf, _ => .inf
  | .fin t, d => .fin (t + d)

/-- `t - d` on JS numbers (`Infinity - d = Infinity`). -/
def JTime.subQ : JTime → ℚ → JTime
  | .inf, _ => .inf
  | .fin t, d => .fin (t - d)

/-- `t <= 0` on JS numbers (`Infinity <= 0` is false). -/
def JTime.le0 : JTime → Bool
  | .inf => false
  | .fin t => decide (t ≤ 0)

/-- One entry of the `activePowerUps` map: `{ time, isPerpetual }`. -/
structure PUEntry where
  time : JTime
  isPerpetual : Bool
deriving DecidableEq, Repr

/-- The per-player active-effect ledger `PlayerPowerUpState`:
`activePowerUps : Map<PowerUpType, {time, isPerpetual}>` and
`perpetualPowerUps : Set<PowerUpType>`, modelled by their contents. -/
structure PlayerPowerUpState where
  activePowerUps : PowerUpType → Option PUEntry
  perpetualPowerUps : PowerUpType → Bool

namespace PlayerPowerUpState

/-- The fresh ledger (both collections empty). -/
def empty : PlayerPowerUpState :=
  { activePowerUps := fun _ => none, perpetualPowerUps := fun _ => false }

/-- `addPowerUp(type, duration, isPerpetual)` (PowerUp.ts lines 296-310). -/
def addPowerUp (s : PlayerPowerUpState) (type : PowerUpType) (duration : ℚ)
    (isPerpetual : Bool) : PlayerPowerUpState :=
  if duration = 0 ∧ isPerpetual = false then s
  else if isPerpetual then
    { activePowerUps := fun t =>
        if t = type then some { time := .inf, isPerpetual := true } else s.activePowerUps t,
      perpetualPowerUps := fun t => if t = type then true else s.perpetualPowerUps t }
  else if s.perpetualPowerUps type then s
  else
    let currentTime : JTime :=
      match s.activePowerUps type with
      | none => .fin 0
      | some e => e.time
    { s with activePowerUps := fun t =>
        if t = type then some { time := currentTime.addQ duration, isPerpetual := false }
        else s.activePowerUps t }

/-- `update(deltaTime)`: decrement all non-perpetual timers, dropping
entries that reach `<= 0` (PowerUp.ts lines 312-322). -/
def update (s : PlayerPowerUpState) (deltaTime : ℚ) : PlayerPowerUpState :=
  { s with activePowerUps := fun t =>
      match s.activePowerUps t with
      | none => none
      | some e =>
        if e.isPerpetual then some e
        else
          let newTime := e.time.subQ deltaTime
          if newTime.le0 then none
          else some { time := newTime, isPerpetual := false } }

/-- `isActive(type)` (PowerUp.ts lines 324-326). -/
def isActive (s : PlayerPowerUpState) (type : PowerUpType) : Bool :=
  (s.activePowerUps type).isSome || s.perpetualPowerUps type

/-- `getRemainingTime(type)`, `data?.time || 0` (PowerUp.ts lines 328-331). -/
def getRemainingTime (s : PlayerPowerUpState) (type : PowerUpType) : JTime :=
  match s.activePowerUps type with
  | none => .fin 0
  | some e => e.time

/-- `isPerpetual(type)` (PowerUp.ts lines 333-335). -/
def isPerpetual (s : PlayerPowerUpState) (type : PowerUpType) : Bool :=
  s.perpetualPowerUps type

/-- `clearTemporary()`: delete all non-perpetual map entries
(PowerUp.ts lines 356-362). -/
def clearTemporary (s : PlayerPowerUpState) : PlayerPowerUpState :=
  { s with activePowerUps := fun t =>
      match s.activePowerUps t with
      | none => none
      | some e => if e.isPerpetual then some e else none }

/-- `clear()`: empty both collections (PowerUp.ts lines 365-368). -/
def clear (_s : PlayerPowerUpState) : PlayerPowerUpState :=
  empty

end PlayerPowerUpState

/-- The net effect of `GameEngine.handlePlayerHit` on the power-up ledger
(GameEngine.ts lines 737-768): first `powerUpState.clearTemporary()`, then
`player.respawn(...)`, whose body calls `powerUpState.clear()`
(Player.ts, `respawn`, lines 1008-1019). -/
def handlePlayerHitLedger (s : PlayerPowerUpState) : PlayerPowerUpState :=
  (s.clearTemporary).clear

/-! ### Score multiplier (src/game/engine/GameEngine.ts) -/

/-- The multiplier-related engine state: `scoreMultiplier` and
`multiplierDecayTimer`.  `maxMultiplier = 100`, `MULTIPLIER_DECAY_TIME = 3`. -/
structure MultState where
  scoreMultiplier : ℤ
  multiplierDecayTimer : ℚ
deriving DecidableEq, Repr

/-- `increaseMultiplier()` (GameEngine.ts lines 544-547). -/
def increaseMultiplier (s : MultState) : MultState :=
  { scoreMultiplier := min 100 (s.scoreMultiplier + 1), multiplierDecayTimer := 3 }

/-- `resetMultiplier()` (GameEngine.ts lines 549-552). -/
def resetMultiplier (_s : MultState) : MultState :=
  { scoreMultiplier := 1, multiplierDecayTimer := 3 }

/-- The multiplier part of the per-frame `update` (GameEngine.ts lines
334-339): decrement the decay timer; on expiry with multiplier above 1,
decay by one and restart the window. -/
def multiplierDecayStep (s : MultState) (deltaTime : ℚ) : MultState :=
  if s.multiplierDecayTimer - deltaTime ≤ 0 ∧ 1 < s.scoreMultiplier then
    { scoreMultiplier := max 1 (s.scoreMultiplier - 1), multiplierDecayTimer := 3 }
  else
    { s with multiplierDecayTimer := s.multiplierDecayTimer - deltaTime }

/-! ### Wave configuration (src/game/systems/WaveManager.ts) -/

/-- The nine enemy variants of `EnemyType` (src/game/entities/Enemy.ts). -/
inductive EnemyType where
  | wanderer | chaser | shooter | diamond | dodger | splitter | splitter_mini | snake
  | boss_hexagon
deriving DecidableEq, Repr

/-- `WaveConfig` (WaveManager.ts lines 5-14). -/
structure WaveConfig where
  waveNumber : ℕ
  enemyCount : ℕ
  enemyTypes : List EnemyType
  spawnDelay : ℚ
  waveDelay : ℚ
  enemySpeedMultiplier : ℚ
  enemyHealthMultiplier : ℚ
  powerupChance : ℚ
deriving DecidableEq, Repr

/-- `getWaveConfig(waveNumber)` (WaveManager.ts lines 43-89).  Wave numbers
are naturals (`startNextWave` only produces values `>= 1`; the `n - 1`
below is ℕ-subtraction, which agrees with the source for `n >= 1`). -/
def getWaveConfig (waveNumber : ℕ) : WaveConfig :=
  let isBossWave := waveNumber % 10 = 0 ∧ 0 < waveNumber
  let enemyCount : ℕ :=
    if isBossWave then waveNumber / 10
    else 15 + (waveNumber - 1) * 15
  let enemyTypes : List EnemyType :=
    if isBossWave then [.boss_hexagon]
    else
      [EnemyType.wanderer]
      ++ (if 2 ≤ waveNumber then [EnemyType.chaser] else [])
      ++ (if 3 ≤ waveNumber then [EnemyType.diamond] else [])
      ++ (if 4 ≤ waveNumber then [EnemyType.shooter] else [])
      ++ (if 5 ≤ waveNumber then [EnemyType.dodger] else [])
      ++ (if 6 ≤ waveNumber then [EnemyType.splitter] else [])
      ++ (if 7 ≤ waveNumber then [EnemyType.snake] else [])
  { waveNumber := waveNumber
    enemyCount := enemyCount
    enemyTypes := enemyTypes
    spawnDelay := if isBossWave then 2 else max 0.15 (0.7 - (waveNumber : ℚ) * 0.05)
    waveDelay := 2 + min ((waveNumber : ℚ) * 0.3) 3
    enemySpeedMultiplier := 1 + ((waveNumber : ℚ) - 1) * 0.05
    enemyHealthMultiplier := 1 + (((waveNumber - 1) / 5 : ℕ) : ℚ) * 0.5
    powerupChance := min 0.4 (0.15 + (waveNumber : ℚ) * 0.02) }

/-! ### Collision pass (src/game/systems/CollisionSystem.ts) -/

/-- The fields of `Bullet` the collision pass reads (Bullet.ts: `position`,
`getSize() = 4`, `isAlive`); `id` is the entity id string. -/
structure CBullet where
  id : ℕ
  position : Vec
  size : ℚ
  isAlive : Bool
deriving DecidableEq, Repr

/-- The fields of `Enemy` the collision pass reads. -/
structure CEnemy where
  id : ℕ
  position : Vec
  size : ℚ
  isAlive : Bool
deriving DecidableEq, Repr

/-- The fields of `Player` the collision pass reads. -/
structure CPlayer where
  position : Vec
  size : ℚ
  isAlive : Bool
deriving DecidableEq, Repr

/-- The fields of `PowerUp` the collision pass reads. -/
structure CPowerUp where
  id : ℕ
  position : Vec
  size : ℚ
  isAlive : Bool
deriving DecidableEq, Repr

/-- The fields of `EnemyBullet` the collision pass reads. -/
structure CEnemyBullet where
  id : ℕ
  position : Vec
  size : ℚ
  isAlive : Bool
deriving DecidableEq, Repr

/-- `checkCircleCollision(pos1, radius1, pos2, radius2)`
(CollisionSystem.ts lines 20-28): the source compares
`Math.sqrt(dx^2+dy^2) < radius1+radius2`; embedded sqrt-free
(equivalent since every radius passed is nonnegative). -/
def checkCircleCollision (pos1 : Vec) (radius1 : ℚ) (pos2 : Vec) (radius2 : ℚ) : Bool :=
  decide (distSq pos1 pos2 < (radius1 + radius2) ^ 2)

/-- `CollisionResult` (CollisionSystem.ts lines 11-16). -/
structure CollisionResult where
  bulletEnemyCollisions : List (CBullet × CEnemy)
  playerEnemyCollisions : List (CPlayer × CEnemy)
  playerPowerUpCollisions : List (CPlayer × CPowerUp)
  playerEnemyBulletCollisions : List (CPlayer × CEnemyBullet)

/-- The `Bullets vs Enemies` double loop of `checkCollisions`
(CollisionSystem.ts lines 45-63): a `continue` on a dead entity, a push on
circle overlap; `flatMap`/`filterMap` mirror the loops, output order
matches iteration order. -/
def bulletEnemyPairs (bullets : List CBullet) (enemies : List CEnemy) :
    List (CBullet × CEnemy) :=
  bullets.flatMap fun bullet =>
    if !bullet.isAlive then []
    else enemies.filterMap fun enemy =>
      if !enemy.isAlive then none
      else if checkCircleCollision bullet.position bullet.size enemy.position enemy.size
        then some (bullet, enemy) else none

/-- The `Player vs Enemies` loop (CollisionSystem.ts lines 65-81): the
player hitbox is deliberately shrunk to `0.7 × getSize()`. -/
def playerEnemyPairs (player : CPlayer) (enemies : List CEnemy) :
    List (CPlayer × CEnemy) :=
  if player.isAlive then
    enemies.filterMap fun enemy =>
      if !enemy.isAlive then none
      else if checkCircleCollision player.position (player.size * 0.7)
          enemy.position enemy.size
        then some (player, enemy) else none
  else []

/-- The `Player vs Power-ups` loop (CollisionSystem.ts lines 83-99). -/
def playerPowerUpPairs (player : CPlayer) (powerUps : List CPowerUp) :
    List (CPlayer × CPowerUp) :=
  if player.isAlive then
    powerUps.filterMap fun powerUp =>
      if !powerUp.isAlive then none
      else if checkCircleCollision player.position player.size
          powerUp.position powerUp.size
        then some (player, powerUp) else none
  else []

/-- The `Player vs Enemy Bullets` loop (CollisionSystem.ts lines 101-117):
the player hitbox is shrunk further, to `0.6 × getSize()`. -/
def playerEnemyBulletPairs (player : CPlayer) (enemyBullets : List CEnemyBullet) :
    List (CPlayer × CEnemyBullet) :=
  if player.isAlive then
    enemyBullets.filterMap fun bullet =>
      if !bullet.isAlive then none
      else if checkCircleCollision player.position (player.size * 0.6)
          bullet.position bullet.size
        then some (player, bullet) else none
  else []

/-- `checkCollisions(player, bullets, enemies, powerUps, enemyBullets)`
(CollisionSystem.ts lines 31-120). -/
def checkCollisions (player : CPlayer) (bullets : List CBullet) (enemies : List CEnemy)
    (powerUps : List CPowerUp) (enemyBullets : List CEnemyBullet) : CollisionResult :=
  { bulletEnemyCollisions := bulletEnemyPairs bullets enemies
    playerEnemyCollisions := playerEnemyPairs player enemies
    playerPowerUpCollisions := playerPowerUpPairs player powerUps
    playerEnemyBulletCollisions := playerEnemyBulletPairs player enemyBullets }

/-! ### Enemy entity (src/game/entities/Enemy.ts) -/

/-- `ENEMY_POINTS` (Enemy.ts lines 348-358). -/
def enemyPoints : EnemyType → ℕ
  | .wanderer => 100
  | .chaser => 150
  | .shooter => 200
  | .diamond => 120
  | .dodger => 250
  | .splitter => 180
  | .splitter_mini => 60
  | .snake => 300
  | .boss_hexagon => 5000

/-- `ENEMY_CONFIGS[type].size` (Enemy.ts lines 368-378). -/
def enemyConfigSize : EnemyType → ℚ
  | .wanderer => 15
  | .chaser => 12
  | .shooter => 18
  | .diamond => 14
  | .dodger => 16
  | .splitter => 22
  | .splitter_mini => 10
  | .snake => 18
  | .boss_hexagon => 50

/-- `ENEMY_CONFIGS[type].speed`, with `GAME_CONFIG.ENEMY_SPEED = 100`. -/
def enemyConfigSpeed : EnemyType → ℚ
  | .wanderer => 100
  | .chaser => 100 * 1.3
  | .shooter => 100 * 0.6
  | .diamond => 100 * 0.9
  | .dodger => 100 * 0.9
  | .splitter => 100 * 0.7
  | .splitter_mini => 100 * 1.4
  | .snake => 100 * 0.8
  | .boss_hexagon => 0

/-- `ENEMY_CONFIGS[type].health`. -/
def enemyConfigHealth : EnemyType → ℚ
  | .wanderer => 1
  | .chaser => 1
  | .shooter => 2
  | .diamond => 1
  | .dodger => 2
  | .splitter => 2
  | .splitter_mini => 1
  | .snake => 4
  | .boss_hexagon => 50

/-- The `Enemy` class state (the fields touched by the embedded methods). -/
structure Enemy where
  id : ℕ
  position : Vec
  velocity : Vec
  rotation : ℚ
  isAlive : Bool
  type : EnemyType
  points : ℕ
  health : ℚ
  maxHealth : ℚ
  size : ℚ
  baseSpeed : ℚ
  shootTimer : ℚ
  shootInterval : ℚ
  pendingSplits : List Vec
  segments : List Vec
  segmentSpacing : ℚ
  targetAngle : ℚ
  teleportTimer : ℚ
  chargeTimer : ℚ
  isCharging : Bool

/-- The `Enemy` constructor (Enemy.ts lines 429-475).  Random draws are
passed explicitly: `rCos`/`rSin` stand for `cos(angle)`/`sin(angle)` of the
random initial heading, `rShoot` for the shooter's random initial
`shootTimer`, `rTarget` for the snake's random initial `targetAngle`. -/
def mkEnemy (x y : ℚ) (type : EnemyType) (id : ℕ) (speedMultiplier : ℚ)
    (rCos rSin rShoot rTarget : ℚ) : Enemy :=
  let baseSpeed := enemyConfigSpeed type * speedMultiplier
  { id := id
    position := ⟨x, y⟩
    velocity := ⟨rCos * baseSpeed, rSin * baseSpeed⟩
    rotation := 0
    isAlive := true
    type := type
    points := enemyPoints type
    health := enemyConfigHealth type
    maxHealth := enemyConfigHealth type
    size := enemyConfigSize type
    baseSpeed := baseSpeed
    shootTimer := if type = .shooter then rShoot else 0
    shootInterval := if type = .boss_hexagon then 1.5 else 2.5
    pendingSplits := []
    segments :=
      if type = .snake then
        (List.range 9).map fun (i : ℕ) => ⟨x - ((i : ℚ) + 1) * 18, y⟩
      else []
    segmentSpacing := 18
    targetAngle := if type = .snake then rTarget else 0
    teleportTimer := if type = .boss_hexagon then 1 else 0
    chargeTimer := if type = .boss_hexagon then 1 else 0
    isCharging := type = .boss_hexagon }

/-- `takeDamage(amount)` (Enemy.ts lines 1010-1028), returning the updated
enemy and the "killed" flag.  The three split offsets of a dying splitter
use `Math.PI`, `Math.random()`, `Math.cos`, `Math.sin`; these are taken as
the parameters `pi`, `rand i`, `jcos`, `jsin`. -/
def Enemy.takeDamage (jcos jsin : ℚ → ℚ) (pi : ℚ) (rand : ℕ → ℚ)
    (e : Enemy) (amount : ℚ) : Enemy × Bool :=
  let health := e.health - amount
  if health ≤ 0 then
    let splits :=
      if e.type = .splitter then
        (List.range 3).map fun (i : ℕ) =>
          let angle := ((i : ℚ) / 3) * pi * 2 + rand i * 0.5
          (⟨e.position.x + jcos angle * 25, e.position.y + jsin angle * 25⟩ : Vec)
      else []
    ({ e with
        health := health
        pendingSplits := e.pendingSplits ++ splits
        isAlive := false }, true)
  else
    ({ e with health := health }, false)

/-- `getPendingSplits()` (Enemy.ts lines 730-734): return the queued split
positions and empty the queue. -/
def Enemy.getPendingSplits (e : Enemy) : List Vec × Enemy :=
  (e.pendingSplits, { e with pendingSplits := [] })

/-- `destroySegment(index)` (Enemy.ts lines 754-759): splice out one snake
segment when the index is valid. -/
def Enemy.destroySegment (e : Enemy) (index : ℕ) : Enemy × Bool :=
  if e.type = .snake ∧ index < e.segments.length then
    ({ e with segments := e.segments.eraseIdx index }, true)
  else (e, false)

/-- `getSegmentCount()` (Enemy.ts lines 771-773). -/
def Enemy.getSegmentCount (e : Enemy) : ℕ :=
  e.segments.length

/-- `checkSegmentCollision(point, radius)` (Enemy.ts lines 736-747): index
of the first segment whose circle (radius `size * 0.7`) overlaps the point
circle, `-1`-as-`none` otherwise. -/
def Enemy.checkSegmentCollision (e : Enemy) (point : Vec) (radius : ℚ) : Option ℕ :=
  if e.type ≠ .snake then none
  else
    e.segments.findIdx?
      (fun segment => checkCircleCollision point radius segment (e.size * 0.7))

/-- `magnitude(v) = Math.sqrt(v.x*v.x + v.y*v.y)` (utils/Vector2.ts), with
the square root taken as the parameter `jsqrt`. -/
def jmagnitude (jsqrt : ℚ → ℚ) (v : Vec) : ℚ :=
  jsqrt (v.x * v.x + v.y * v.y)

/-- `normalize(v)` (utils/Vector2.ts): zero vector for zero magnitude,
otherwise the vector divided by its magnitude. -/
def jnormalize (jsqrt : ℚ → ℚ) (v : Vec) : Vec :=
  let mag := jmagnitude jsqrt v
  if mag = 0 then ⟨0, 0⟩ else ⟨v.x / mag, v.y / mag⟩

/-- One iteration of the snake's segment-follow loop (Enemy.ts lines
639-651): a segment is pulled toward the position ahead of it whenever the
gap exceeds the fixed spacing, by exactly the excess distance. -/
def snakeFollowStep (jsqrt : ℚ → ℚ) (spacing : ℚ) (target seg : Vec) : Vec :=
  let toTarget : Vec := ⟨target.x - seg.x, target.y - seg.y⟩
  let dist := jmagnitude jsqrt toTarget
  if spacing < dist then
    let direction := jnormalize jsqrt toTarget
    let moveAmount := dist - spacing
    ⟨seg.x + direction.x * moveAmount, seg.y + direction.y * moveAmount⟩
  else seg

/-- The whole segment-follow pass.  In the source, `positions =
[this.position, ...this.segments]` holds references, so segment `i`
follows the already-updated segment `i-1`; the fold keeps the last updated
position as the accumulator to reproduce this. -/
def followSegments (jsqrt : ℚ → ℚ) (spacing : ℚ) (head : Vec) (segs : List Vec) : List Vec :=
  (segs.foldl
    (fun (acc : Vec × List Vec) seg =>
      let seg' := snakeFollowStep jsqrt spacing acc.1 seg
      (seg', acc.2 ++ [seg']))
    (head, [])).2

/-- `updateSnake(deltaTime, playerPosition)` (Enemy.ts lines 616-652).
`jatan2` stands for `Math.atan2`, `wrapAngle` for the two `while` loops
normalizing the angle difference into `(-π, π]` (they need `Math.PI`),
`nowSec` for `performance.now() / 1000`. -/
def Enemy.updateSnake (jsin jcos jsqrt wrapAngle : ℚ → ℚ) (jatan2 : ℚ → ℚ → ℚ)
    (nowSec deltaTime : ℚ) (playerPosition : Vec) (e : Enemy) : Enemy :=
  if e.segments.length = 0 then { e with isAlive := false }
  else
    let toPlayer : Vec := ⟨playerPosition.x - e.position.x, playerPosition.y - e.position.y⟩
    let distToPlayer := jmagnitude jsqrt toPlayer
    let e :=
      if 0 < distToPlayer then
        let targetAngle := jatan2 toPlayer.y toPlayer.x
        let sineOffset := jsin (nowSec * 3) * 0.5
        let angleDiff := wrapAngle (targetAngle + sineOffset - e.targetAngle)
        let newAngle := e.targetAngle + angleDiff * deltaTime * 2
        { e with
            targetAngle := newAngle
            velocity := ⟨jcos newAngle * e.baseSpeed, jsin newAngle * e.baseSpeed⟩ }
      else e
    { e with
        rotation := e.targetAngle
        segments := followSegments jsqrt e.segmentSpacing e.position e.segments }

/-! ### Wave runtime (src/game/systems/WaveManager.ts) -/

/-- `WaveState` (WaveManager.ts lines 16-24). -/
structure WaveState where
  currentWave : ℕ
  enemiesRemaining : ℕ
  enemiesSpawned : ℕ
  isActive : Bool
  waveStartTime : ℚ
  betweenWaves : Bool
  nextWaveTime : ℚ
deriving DecidableEq, Repr

/-- The `WaveManager` instance state. -/
structure WaveManager where
  state : WaveState
  spawnTimer : ℚ
  currentConfig : Option WaveConfig
deriving DecidableEq, Repr

/-- The per-type spawn weights of `getNextEnemyToSpawn` (WaveManager.ts
lines 147-157); the trailing `return 1` default covers `splitter_mini`. -/
def enemyTypeWeight : EnemyType → ℚ
  | .wanderer => 3
  | .chaser => 2
  | .diamond => 3
  | .shooter => 1
  | .dodger => 1
  | .splitter => 2
  | .snake => 1
  | .boss_hexagon => 1
  | .splitter_mini => 1

/-- The weighted-selection loop of `getNextEnemyToSpawn` (lines 162-167):
subtract weights until the running value drops to `<= 0`. -/
def pickWeightedLoop : ℚ → List EnemyType → Option EnemyType
  | _, [] => none
  | r, t :: ts =>
    let r := r - enemyTypeWeight t
    if r ≤ 0 then some t else pickWeightedLoop r ts

/-- `getNextEnemyToSpawn()` (WaveManager.ts lines 136-170).  `rand` stands
for the `Math.random()` draw in `[0,1)`;  the fallback `return types[0]`
becomes `types.head?`. -/
def WaveManager.getNextEnemyToSpawn (rand : ℚ) (wm : WaveManager) :
    Option EnemyType × WaveManager :=
  match wm.currentConfig with
  | none => (none, wm)
  | some cfg =>
    if cfg.enemyCount ≤ wm.state.enemiesSpawned then (none, wm)
    else
      let spawned := wm.state.enemiesSpawned + 1
      let wm' := { wm with state := { wm.state with
        enemiesSpawned := spawned
        enemiesRemaining := cfg.enemyCount - spawned } }
      let types := cfg.enemyTypes
      let totalWeight := (types.map enemyTypeWeight).sum
      let picked :=
        match pickWeightedLoop (rand * totalWeight) types with
        | some t => some t
        | none => types.head?
      (picked, wm')

/-- `startNextWave()` (WaveManager.ts lines 91-101); `nowT` stands for
`performance.now()`. -/
def WaveManager.startNextWave (nowT : ℚ) (wm : WaveManager) : WaveManager :=
  let currentWave := wm.state.currentWave + 1
  let cfg := getWaveConfig currentWave
  { state := { wm.state with
      currentWave := currentWave
      enemiesRemaining := cfg.enemyCount
      enemiesSpawned := 0
      isActive := true
      waveStartTime := nowT
      betweenWaves := false }
    spawnTimer := 0
    currentConfig := some cfg }

/-- `endWave()` (WaveManager.ts lines 172-177); `currentConfig?.waveDelay
|| 3` falls back to 3 when the config is absent or the delay is 0. -/
def WaveManager.endWave (wm : WaveManager) : WaveManager :=
  { wm with
    state := { wm.state with
      isActive := false
      betweenWaves := true
      nextWaveTime :=
        match wm.currentConfig with
        | some cfg => if cfg.waveDelay = 0 then 3 else cfg.waveDelay
        | none => 3 }
    currentConfig := none }

/-- `update(deltaTime, currentEnemyCount)` (WaveManager.ts lines 103-134):
returns the enemy type to spawn this tick (if any) and the new manager
state. -/
def WaveManager.update (rand nowT deltaTime : ℚ) (currentEnemyCount : ℕ)
    (wm : WaveManager) : Option EnemyType × WaveManager :=
  if wm.state.betweenWaves then
    let nextWaveTime := wm.state.nextWaveTime - deltaTime
    let wm := { wm with state := { wm.state with nextWaveTime := nextWaveTime } }
    if nextWaveTime ≤ 0 then (wm.startNextWave nowT).getNextEnemyToSpawn rand
    else (none, wm)
  else
    match wm.currentConfig with
    | some cfg =>
      if wm.state.isActive then
        if cfg.enemyCount ≤ wm.state.enemiesSpawned then
          if currentEnemyCount = 0 then (none, wm.endWave) else (none, wm)
        else
          let spawnTimer := wm.spawnTimer + deltaTime
          if cfg.spawnDelay ≤ spawnTimer then
            WaveManager.getNextEnemyToSpawn rand { wm with spawnTimer := 0 }
          else (none, { wm with spawnTimer := spawnTimer })
      else (none, wm)
    | none => (none, wm)

/-! ### Spawner and secret cache (src/game/engine/GameEngine.ts) -/

/-- The edge position picked by `spawnEnemy` (GameEngine.ts lines 499-520):
`side` is the `Math.floor(Math.random()*4)` draw, `r` the `Math.random()`
draw used for the coordinate along the chosen edge; margin 50, arena
2000 × 1400. -/
def spawnPosition (side : ℕ) (r : ℚ) : Vec :=
  if side = 0 then ⟨r * 2000, 50⟩
  else if side = 1 then ⟨2000 - 50, r * 1400⟩
  else if side = 2 then ⟨r * 2000, 1400 - 50⟩
  else ⟨50, r * 1400⟩

/-- `spawnEnemy(type)` (GameEngine.ts lines 498-536): pick an edge
position; if it is within distance 300 of the player (source compares
`Math.sqrt(dx*dx+dy*dy) < 300`, embedded sqrt-free), return with the
enemy collection unchanged; otherwise push a freshly constructed enemy. -/
def spawnEnemy (side : ℕ) (r : ℚ) (playerPos : Vec) (type : EnemyType)
    (enemyIdCounter : ℕ) (speedMultiplier : ℚ) (rCos rSin rShoot rTarget : ℚ)
    (enemies : List Enemy) : List Enemy :=
  let pos := spawnPosition side r
  if distSq pos playerPos < 300 ^ 2 then enemies
  else enemies ++
    [mkEnemy pos.x pos.y type enemyIdCounter speedMultiplier rCos rSin rShoot rTarget]

/-- The engine state the secret cache reads and writes: the player's
`bombCount` (Player.ts, `maxBombs = 3`) and the engine's
`secretCacheFound` flag. -/
structure CacheState where
  bombCount : ℕ
  secretCacheFound : Bool
deriving DecidableEq, Repr

/-- `Player.addBomb()` (Player.ts lines 614-620): increment up to
`maxBombs = 3`, reporting whether the action was legal. -/
def CacheState.addBomb (s : CacheState) : CacheState × Bool :=
  if s.bombCount < 3 then ({ s with bombCount := s.bombCount + 1 }, true)
  else (s, false)

/-- `Player.useBomb()` (Player.ts lines 622-628). -/
def CacheState.useBomb (s : CacheState) : CacheState × Bool :=
  if 0 < s.bombCount then ({ s with bombCount := s.bombCount - 1 }, true)
  else (s, false)

/-- `checkSecretCache()` (GameEngine.ts lines 456-482): with bombs in
stock, disarm-and-rearm the zone; once armed and the player has 0 bombs
and touches the bottom wall inside `x ∈ [0,150]` (`y >= ARENA_HEIGHT -
30`), grant three bombs via `addBomb()` and latch `secretCacheFound`. -/
def checkSecretCache (playerPos : Vec) (s : CacheState) : CacheState :=
  if 0 < s.bombCount then { s with secretCacheFound := false }
  else if s.secretCacheFound then s
  else
    let touchingBottomWall := (1400 : ℚ) - 30 ≤ playerPos.y
    let inSecretZone := 0 ≤ playerPos.x ∧ playerPos.x ≤ 150
    if touchingBottomWall ∧ inSecretZone then
      let s := { s with secretCacheFound := true }
      let s := s.addBomb.1
      let s := s.addBomb.1
      s.addBomb.1
    else s

/-- One frame of the engine as far as the secret cache is concerned
(GameEngine.ts `update`): the bomb key may consume one bomb
(`useBomb`), the cache check runs at the end of the frame. -/
def cacheFrameStep (useBombInput : Bool) (playerPos : Vec) (s : CacheState) : CacheState :=
  checkSecretCache playerPos (if useBombInput then s.useBomb.1 else s)

/-- Iterated `destroySegment` over a list of segment indices (one bullet
hit per call, as resolved by `handleCollisions`). -/
def Enemy.destroySeq (e : Enemy) (idxs : List ℕ) : Enemy :=
  idxs.foldl (fun e i => (e.destroySegment i).1) e

/-- The `WaveManager` state right after wave 10's single boss spawn was
handed out (`enemiesSpawned = 1`, no enemy alive) — the situation reached
when `spawnEnemy` rejects that spawn for being within 300 of the player. -/
def wm10AfterRejectedBossSpawn : WaveManager :=
  { state := { currentWave := 10
               enemiesRemaining := 0
               enemiesSpawned := 1
               isActive := true
               waveStartTime := 0
               betweenWaves := false
               nextWaveTime := 0 }
    spawnTimer := 0
    currentConfig := some (getWaveConfig 10) }

/-! ## Theorems -/

section LedgerTheorems

open PlayerPowerUpState

/-- Helper: a temporary grant of a type that is already perpetual returns
the ledger unchanged. -/
theorem addPowerUp_temp_noop_of_perpetual (s : PlayerPowerUpState) (T : PowerUpType)
    (d : ℚ) (h : s.perpetualPowerUps T = true) : s.addPowerUp T d false = s := by
  unfold PlayerPowerUpState.addPowerUp
  split_ifs
  all_goals simp_all

/-- Helper: a temporary grant of duration `d ≠ 0` on a ledger where the
type is not perpetual writes `currentTime + d` into the map. -/
theorem addPowerUp_temp_eq (s : PlayerPowerUpState) (T : PowerUpType) (d : ℚ)
    (hd : d ≠ 0) (hp : s.perpetualPowerUps T = false) :
    s.addPowerUp T d false =
      { s with activePowerUps := fun t =>
          if t = T then some { time := (s.getRemainingTime T).addQ d, isPerpetual := false }
          else s.activePowerUps t } := by
  unfold PlayerPowerUpState.addPowerUp PlayerPowerUpState.getRemainingTime
  rw [if_neg (by simp [hd]), if_neg (by simp), if_neg (by simp [hp])]

/-- C1: the claim says a perpetual power-up survives `handlePlayerHit` and
is removed only by `clear()` on a new game.  The code disagrees:
`handlePlayerHit` calls `clearTemporary()` but then `player.respawn(...)`,
whose body calls `powerUpState.clear()`, so after a hit every entry —
perpetual included — is gone. -/
theorem handlePlayerHit_clears_perpetual (s : PlayerPowerUpState) (T : PowerUpType)
    (_h : s.isPerpetual T = true) :
    (handlePlayerHitLedger s).isPerpetual T = false ∧
    (handlePlayerHitLedger s).isActive T = false := by
  exact ⟨rfl, rfl⟩

/-- Witness for `handlePlayerHit_clears_perpetual`: a perpetual rapid-fire
grant is wiped by a player hit. -/
theorem handlePlayerHit_clears_perpetual_witness :
    (PlayerPowerUpState.empty.addPowerUp .rapidFire 8 true).isPerpetual .rapidFire = true ∧
    ((handlePlayerHitLedger
        (PlayerPowerUpState.empty.addPowerUp .rapidFire 8 true)).isPerpetual .rapidFire = false ∧
      (handlePlayerHitLedger
        (PlayerPowerUpState.empty.addPowerUp .rapidFire 8 true)).isActive .rapidFire = false) :=
  ⟨by decide, handlePlayerHit_clears_perpetual _ .rapidFire (by decide)⟩

/-- C2: granting a perpetual power-up of type `T` makes `isPerpetual(T)`
and `isActive(T)` true, any later temporary grant of `T` is a no-op on the
whole ledger state, and `clear()` removes the perpetual mark. -/
theorem perpetual_grant_sticky (s : PlayerPowerUpState) (T : PowerUpType) (d d' : ℚ) :
    (s.addPowerUp T d true).isPerpetual T = true ∧
    (s.addPowerUp T d true).isActive T = true ∧
    (s.addPowerUp T d true).addPowerUp T d' false = s.addPowerUp T d true ∧
    ((s.addPowerUp T d true).clear).isPerpetual T = false := by
  have hperp : (s.addPowerUp T d true).perpetualPowerUps T = true := by
    unfold PlayerPowerUpState.addPowerUp
    split_ifs with h1 h2 <;> simp_all
  refine ⟨hperp, ?_, addPowerUp_temp_noop_of_perpetual _ T d' hperp, rfl⟩
  unfold PlayerPowerUpState.isActive
  simp [hperp]

/-- C3: for a type with no current ledger entry and not perpetual, two
temporary grants of durations `D1`, `D2 > 0` with no `update` in between
stack additively: the remaining time is exactly `D1 + D2`. -/
theorem temporary_grants_stack (s : PlayerPowerUpState) (T : PowerUpType) (D1 D2 : ℚ)
    (hperp : s.isPerpetual T = false) (hnone : s.activePowerUps T = none)
    (h1 : 0 < D1) (h2 : 0 < D2) :
    ((s.addPowerUp T D1 false).addPowerUp T D2 false).getRemainingTime T
      = JTime.fin (D1 + D2) := by
  have hp : s.perpetualPowerUps T = false := hperp
  have e1 := addPowerUp_temp_eq s T D1 h1.ne' hp
  have hp1 : (s.addPowerUp T D1 false).perpetualPowerUps T = false := by
    rw [e1]; exact hp
  have e2 := addPowerUp_temp_eq (s.addPowerUp T D1 false) T D2 h2.ne' hp1
  have hr1 : (s.addPowerUp T D1 false).getRemainingTime T = JTime.fin D1 := by
    rw [e1]
    simp [PlayerPowerUpState.getRemainingTime, hnone, JTime.addQ]
  rw [e2]
  simp only [hr1]
  simp [PlayerPowerUpState.getRemainingTime, JTime.addQ]

end LedgerTheorems

/-- C4: the score multiplier obeys its invariants: it always stays in
`[1, 100]`; a kill (`increaseMultiplier`) adds exactly 1, capped at 100,
and restarts the 3-second decay window; a player hit (`resetMultiplier`)
sets it to exactly 1; the per-frame decay step subtracts exactly 1 when
the 3-second idle window expires with multiplier above 1, and never drops
below 1. -/
theorem multiplier_invariants (s : MultState) (dt : ℚ)
    (hlo : 1 ≤ s.scoreMultiplier) (hhi : s.scoreMultiplier ≤ 100) :
    ((increaseMultiplier s).scoreMultiplier = min 100 (s.scoreMultiplier + 1) ∧
      (increaseMultiplier s).multiplierDecayTimer = 3 ∧
      1 ≤ (increaseMultiplier s).scoreMultiplier ∧
      (increaseMultiplier s).scoreMultiplier ≤ 100) ∧
    (s.scoreMultiplier < 100 →
      (increaseMultiplier s).scoreMultiplier = s.scoreMultiplier + 1) ∧
    ((resetMultiplier s).scoreMultiplier = 1) ∧
    (1 ≤ (multiplierDecayStep s dt).scoreMultiplier ∧
      (multiplierDecayStep s dt).scoreMultiplier ≤ 100) ∧
    (s.multiplierDecayTimer - dt ≤ 0 → 1 < s.scoreMultiplier →
      (multiplierDecayStep s dt).scoreMultiplier = s.scoreMultiplier - 1) := by
  refine ⟨⟨rfl, rfl, ?_, ?_⟩, ?_, rfl, ⟨?_, ?_⟩, ?_⟩
  · simp only [increaseMultiplier]; omega
  · simp only [increaseMultiplier]; omega
  · intro h; simp only [increaseMultiplier]; omega
  · unfold multiplierDecayStep
    split_ifs
    all_goals simp
    all_goals omega
  · unfold multiplierDecayStep
    split_ifs
    all_goals simp
    all_goals omega
  · intro ht hm
    unfold multiplierDecayStep
    rw [if_pos ⟨ht, hm⟩]
    simp only
    omega

/-- Witness for `multiplier_invariants` at multiplier 5, timer 1, dt 2. -/
theorem multiplier_invariants_witness :
    (increaseMultiplier ⟨5, 1⟩).scoreMultiplier = min 100 (5 + 1) ∧
    (multiplierDecayStep ⟨5, 1⟩ 2).scoreMultiplier = 5 - 1 := by
  have h := multiplier_invariants ⟨5, 1⟩ 2 (by norm_num) (by norm_num)
  exact ⟨h.1.1, h.2.2.2.2 (by norm_num) (by norm_num)⟩

/-- C5: `getWaveConfig(n).enemyTypes` is exactly the one-element boss list
iff `n` is a positive multiple of 10, and on boss waves the enemy count is
`n / 10`. -/
theorem getWaveConfig_boss_iff (n : ℕ) (h : 1 ≤ n) :
    ((getWaveConfig n).enemyTypes = [EnemyType.boss_hexagon] ↔ (n % 10 = 0 ∧ 0 < n)) ∧
    (n % 10 = 0 → (getWaveConfig n).enemyCount = n / 10) := by
  have hpos : 0 < n := Nat.lt_of_lt_of_le Nat.zero_lt_one h
  by_cases hb : n % 10 = 0
  · constructor
    · simp [getWaveConfig, hb, hpos]
    · intro _
      simp [getWaveConfig, hb, hpos]
  · constructor
    · constructor
      · intro hcontra
        simp [getWaveConfig, hb] at hcontra
      · rintro ⟨h10, -⟩; exact absurd h10 hb
    · intro h10; exact absurd h10 hb

/-- Witness for `getWaveConfig_boss_iff` at waves 10 and 7. -/
theorem getWaveConfig_boss_iff_witness :
    (getWaveConfig 10).enemyTypes = [EnemyType.boss_hexagon] ∧
    (getWaveConfig 10).enemyCount = 1 ∧
    (getWaveConfig 7).enemyTypes ≠ [EnemyType.boss_hexagon] := by
  refine ⟨((getWaveConfig_boss_iff 10 (by norm_num)).1).mpr (by norm_num), ?_, ?_⟩
  · have h := (getWaveConfig_boss_iff 10 (by norm_num)).2 (by norm_num)
    simpa using h
  · intro hc
    have h := ((getWaveConfig_boss_iff 7 (by norm_num)).1).mp hc
    omega

/-- C10: the secret cache, per `checkSecretCache` step: a player with 0
bombs touching the bottom wall in `x ∈ [0,150]` while the zone is armed
receives exactly 3 bombs and the zone latches; while the latch holds (and
bombs stay at 0) nothing changes; while the player holds bombs nothing is
ever granted and the zone re-arms, so a later return to 0 bombs in the
zone grants again. -/
theorem secretCache_grant_once (s : CacheState) (pos : Vec) :
    (s.bombCount = 0 → s.secretCacheFound = false →
      ((1400 : ℚ) - 30 ≤ pos.y ∧ 0 ≤ pos.x ∧ pos.x ≤ 150) →
      (checkSecretCache pos s).bombCount = 3 ∧
      (checkSecretCache pos s).secretCacheFound = true) ∧
    (s.secretCacheFound = true → s.bombCount = 0 → checkSecretCache pos s = s) ∧
    (0 < s.bombCount →
      (checkSecretCache pos s).bombCount = s.bombCount ∧
      (checkSecretCache pos s).secretCacheFound = false) := by
  obtain ⟨b, f⟩ := s
  refine ⟨?_, ?_, ?_⟩
  · rintro hb hf ⟨hy, hx1, hx2⟩
    simp only at hb hf
    subst hb; subst hf
    simp [checkSecretCache, CacheState.addBomb, hy, hx1, hx2]
  · intro hf hb
    simp only at hb hf
    subst hb; subst hf
    simp [checkSecretCache]
  · intro hb
    simp only at hb
    simp [checkSecretCache, hb]

/-- Witness for `secretCache_grant_once`: an armed zone, 0 bombs, player
at `(100, 1390)`. -/
theorem secretCache_grant_once_witness :
    (checkSecretCache ⟨100, 1390⟩ ⟨0, false⟩).bombCount = 3 ∧
    (checkSecretCache ⟨100, 1390⟩ ⟨0, false⟩).secretCacheFound = true :=
  (secretCache_grant_once ⟨0, false⟩ ⟨100, 1390⟩).1 rfl rfl (by norm_num)

/-- C8: a `takeDamage` call that brings health to `<= 0` returns `true`;
a dying `splitter` enqueues exactly 3 split descriptors, retrievable once
via `getPendingSplits` (the second drain is empty); a dying
`splitter_mini` enqueues none. -/
theorem takeDamage_split_counts (jcos jsin : ℚ → ℚ) (pi : ℚ) (rand : ℕ → ℚ)
    (e : Enemy) (amount : ℚ) (hq : e.pendingSplits = []) (hh : e.health ≤ amount) :
    ((e.takeDamage jcos jsin pi rand amount).2 = true) ∧
    (e.type = .splitter →
      (e.takeDamage jcos jsin pi rand amount).1.getPendingSplits.1.length = 3 ∧
      (e.takeDamage jcos jsin pi rand amount).1.getPendingSplits.2.getPendingSplits.1 = []) ∧
    (e.type = .splitter_mini →
      (e.takeDamage jcos jsin pi rand amount).1.getPendingSplits.1.length = 0) := by
  have hcond : e.health - amount ≤ 0 := by linarith
  unfold Enemy.takeDamage
  rw [if_pos hcond]
  refine ⟨rfl, ?_, ?_⟩
  · intro ht
    simp [Enemy.getPendingSplits, hq, ht]
  · intro ht
    simp [Enemy.getPendingSplits, hq, ht]

/-- Witness for `takeDamage_split_counts`: a fresh splitter (health 2)
taking 2 damage. -/
theorem takeDamage_split_counts_witness :
    ((mkEnemy 100 100 .splitter 0 1 1 0 0 0).takeDamage
        (fun _ => 1) (fun _ => 1) 3 (fun _ => 0) 2).2 = true ∧
    ((mkEnemy 100 100 .splitter 0 1 1 0 0 0).takeDamage
        (fun _ => 1) (fun _ => 1) 3 (fun _ => 0) 2).1.getPendingSplits.1.length = 3 := by
  have h := takeDamage_split_counts (fun _ => 1) (fun _ => 1) 3 (fun _ => 0)
    (mkEnemy 100 100 .splitter 0 1 1 0 0 0) 2 rfl
    (by norm_num [mkEnemy, enemyConfigHealth])
  exact ⟨h.1, (h.2.1 rfl).1⟩

/-- Helper: `updateSnake` with at least one segment left does not touch
`isAlive`. -/
theorem updateSnake_alive_of_segments (jsin jcos jsqrt wrapAngle : ℚ → ℚ)
    (jatan2 : ℚ → ℚ → ℚ) (nowSec dt : ℚ) (p : Vec) (e : Enemy)
    (h : e.segments.length ≠ 0) :
    (e.updateSnake jsin jcos jsqrt wrapAngle jatan2 nowSec dt p).isAlive = e.isAlive := by
  unfold Enemy.updateSnake
  rw [if_neg h]
  dsimp only
  split_ifs <;> rfl

/-- Helper: `updateSnake` on an empty segment list marks the enemy dead. -/
theorem updateSnake_kills_of_no_segments (jsin jcos jsqrt wrapAngle : ℚ → ℚ)
    (jatan2 : ℚ → ℚ → ℚ) (nowSec dt : ℚ) (p : Vec) (e : Enemy)
    (h : e.segments.length = 0) :
    (e.updateSnake jsin jcos jsqrt wrapAngle jatan2 nowSec dt p).isAlive = false := by
  unfold Enemy.updateSnake
  rw [if_pos h]

/-- Helper: projection of a segments-only record update. -/
theorem Enemy.segments_set (e : Enemy) (l : List Vec) :
    ({ e with segments := l } : Enemy).segments = l := rfl

/-- Helper: the segment chain of a freshly constructed snake. -/
theorem mkEnemy_snake_segments (x y sm rCos rSin rShoot rTarget : ℚ) (id : ℕ) :
    (mkEnemy x y .snake id sm rCos rSin rShoot rTarget).segments
      = (List.range 9).map (fun (i : ℕ) => (⟨x - ((i : ℚ) + 1) * 18, y⟩ : Vec)) := rfl

/-- Helper: a sequence of valid `destroySegment` calls removes exactly one
segment each, and never touches `isAlive` or the type tag. -/
theorem destroySeq_spec (e : Enemy) (idxs : List ℕ) (ht : e.type = .snake)
    (hv : ∀ j (h : j < idxs.length), idxs.get ⟨j, h⟩ < e.segments.length - j) :
    (e.destroySeq idxs).segments.length = e.segments.length - idxs.length ∧
    (e.destroySeq idxs).isAlive = e.isAlive ∧
    (e.destroySeq idxs).type = .snake := by
  induction idxs generalizing e with
  | nil => simpa [Enemy.destroySeq] using ht
  | cons i rest ih =>
    have hi : i < e.segments.length := by
      have h0 := hv 0 (by simp)
      simpa using h0
    have hstep : (e.destroySegment i).1 = { e with segments := e.segments.eraseIdx i } := by
      unfold Enemy.destroySegment
      rw [if_pos ⟨ht, hi⟩]
    have hlen : (e.segments.eraseIdx i).length = e.segments.length - 1 := by
      rw [List.length_eraseIdx, if_pos hi]
    have hrec := ih { e with segments := e.segments.eraseIdx i } ht ?hv'
    case hv' =>
      intro j hj
      have hnext := hv (j + 1) (by simpa using Nat.succ_lt_succ hj)
      simp only [List.get_eq_getElem, List.getElem_cons_succ] at hnext
      simp only [List.get_eq_getElem, Enemy.segments_set]
      rw [hlen]
      omega
    have hfold : e.destroySeq (i :: rest)
        = ({ e with segments := e.segments.eraseIdx i } : Enemy).destroySeq rest := by
      unfold Enemy.destroySeq
      simp [hstep]
    rw [hfold]
    refine ⟨?_, hrec.2.1, hrec.2.2⟩
    have hrlen := hrec.1
    rw [Enemy.segments_set, hlen] at hrlen
    rw [hrlen]
    simp only [List.length_cons]
    omega

/-- C7: a freshly spawned snake has 9 segments; destroying `k < 9`
segments through any sequence of valid `destroySegment` calls leaves it
alive with `getSegmentCount() = 9 - k` (also after the next `updateSnake`
tick), and destroying all 9 makes the next `updateSnake` tick mark it
dead. -/
theorem snake_destroy_segments (x y sm rCos rSin rShoot rTarget : ℚ)
    (jsin jcos jsqrt wrapAngle : ℚ → ℚ) (jatan2 : ℚ → ℚ → ℚ) (nowSec dt : ℚ) (p : Vec)
    (idxs : List ℕ)
    (hv : ∀ j (h : j < idxs.length), idxs.get ⟨j, h⟩ < 9 - j) :
    (idxs.length < 9 →
      ((mkEnemy x y .snake 0 sm rCos rSin rShoot rTarget).destroySeq idxs).isAlive = true ∧
      ((mkEnemy x y .snake 0 sm rCos rSin rShoot rTarget).destroySeq idxs).getSegmentCount
        = 9 - idxs.length ∧
      (((mkEnemy x y .snake 0 sm rCos rSin rShoot rTarget).destroySeq idxs).updateSnake
          jsin jcos jsqrt wrapAngle jatan2 nowSec dt p).isAlive = true) ∧
    (idxs.length = 9 →
      (((mkEnemy x y .snake 0 sm rCos rSin rShoot rTarget).destroySeq idxs).updateSnake
          jsin jcos jsqrt wrapAngle jatan2 nowSec dt p).isAlive = false) := by
  have hseg : (mkEnemy x y .snake 0 sm rCos rSin rShoot rTarget).segments.length = 9 := by
    rw [mkEnemy_snake_segments, List.length_map, List.length_range]
  have htype : (mkEnemy x y .snake 0 sm rCos rSin rShoot rTarget).type = .snake := rfl
  have halive : (mkEnemy x y .snake 0 sm rCos rSin rShoot rTarget).isAlive = true := rfl
  have hd := destroySeq_spec (mkEnemy x y .snake 0 sm rCos rSin rShoot rTarget) idxs htype
    (by intro j hj; rw [hseg]; exact hv j hj)
  constructor
  · intro hlt
    have h1 : ((mkEnemy x y .snake 0 sm rCos rSin rShoot rTarget).destroySeq idxs).segments.length
        = 9 - idxs.length := by rw [hd.1, hseg]
    refine ⟨by rw [hd.2.1, halive], ?_, ?_⟩
    · unfold Enemy.getSegmentCount
      exact h1
    · rw [updateSnake_alive_of_segments jsin jcos jsqrt wrapAngle jatan2 nowSec dt p _
        (by rw [h1]; omega), hd.2.1, halive]
  · intro heq
    apply updateSnake_kills_of_no_segments
    rw [hd.1, hseg, heq]

/-- Witness for `snake_destroy_segments`: destroying 3 segments leaves 6;
destroying all 9 then updating kills the snake. -/
theorem snake_destroy_segments_witness :
    ((mkEnemy 0 0 .snake 0 1 1 0 0 0).destroySeq [0, 0, 0]).getSegmentCount = 9 - 3 ∧
    ((((mkEnemy 0 0 .snake 0 1 1 0 0 0).destroySeq
        [0, 0, 0, 0, 0, 0, 0, 0, 0]).updateSnake
        id id id id (fun _ _ => 0) 0 0 ⟨0, 0⟩).isAlive = false) := by
  have h1 := snake_destroy_segments 0 0 1 1 0 0 0 id id id id (fun _ _ => 0) 0 0 ⟨0, 0⟩
    [0, 0, 0] (by decide)
  have h2 := snake_destroy_segments 0 0 1 1 0 0 0 id id id id (fun _ _ => 0) 0 0 ⟨0, 0⟩
    [0, 0, 0, 0, 0, 0, 0, 0, 0] (by decide)
  exact ⟨(h1.1 (by norm_num)).2.1, h2.2 (by norm_num)⟩

/-- Helper: counting a pair in a `filterMap` that either skips an element
or emits the pair `(a, x)`, over a duplicate-free list. -/
theorem count_filterMap_pairs {α β : Type} [DecidableEq α] [DecidableEq β]
    (a : α) (b : β) (l : List β) (g : β → Option (α × β))
    (hg : ∀ x, g x = none ∨ g x = some (a, x)) (hl : l.Nodup) :
    (l.filterMap g).count (a, b) = if b ∈ l ∧ g b = some (a, b) then 1 else 0 := by
  induction l with
  | nil => simp
  | cons c cs ih =>
    obtain ⟨hc, hcs⟩ := List.nodup_cons.mp hl
    rcases hg c with hgc | hgc <;> simp only [List.filterMap_cons, hgc]
    · rw [ih hcs]
      by_cases hbc : b = c
      · subst hbc
        simp [hc, hgc]
      · simp [hbc]
    · rw [List.count_cons, ih hcs]
      by_cases hbc : b = c
      · subst hbc
        simp [hc, hgc]
      · have hne : ((a, c) == (a, b)) = false := by
          simp [hbc]
          intro h
          exact absurd h.symm hbc
        rw [hne]
        simp [hbc]

/-- Helper: counting a pair in a `flatMap` whose inner lists only produce
pairs whose first component is the generating element. -/
theorem count_flatMap_pairs {α β : Type} [DecidableEq α] [DecidableEq β]
    (a : α) (b : β) (la : List α) (h : α → List (α × β))
    (hfst : ∀ x, ∀ p ∈ h x, p.1 = x) (hla : la.Nodup) :
    (la.flatMap h).count (a, b) = if a ∈ la then (h a).count (a, b) else 0 := by
  induction la with
  | nil => simp
  | cons c cs ih =>
    obtain ⟨hc, hcs⟩ := List.nodup_cons.mp hla
    rw [List.flatMap_cons, List.count_append, ih hcs]
    by_cases hac : a = c
    · subst hac
      simp [hc]
    · have hz : (h c).count (a, b) = 0 := by
        apply List.count_eq_zero_of_not_mem
        intro hmem
        exact hac (hfst c (a, b) hmem)
      simp [hz, hac]

/-- Helper: exact occurrence count for the bullets-vs-enemies pass. -/
theorem bulletEnemyPairs_count (bullets : List CBullet) (enemies : List CEnemy)
    (hb : bullets.Nodup) (he : enemies.Nodup) (b : CBullet) (e : CEnemy) :
    (bulletEnemyPairs bullets enemies).count (b, e)
      = if b ∈ bullets ∧ e ∈ enemies ∧ b.isAlive ∧ e.isAlive ∧
          checkCircleCollision b.position b.size e.position e.size then 1 else 0 := by
  unfold bulletEnemyPairs
  rw [count_flatMap_pairs b e bullets _ ?hfst hb]
  case hfst =>
    intro x p hp
    by_cases hax : x.isAlive
    · simp only [hax, Bool.not_true, Bool.false_eq_true, if_false] at hp
      rw [List.mem_filterMap] at hp
      obtain ⟨en, _hen, heq⟩ := hp
      split_ifs at heq
      all_goals injection heq with h2
      all_goals rw [← h2]
    · simp [hax] at hp
  by_cases hbm : b ∈ bullets
  · rw [if_pos hbm]
    by_cases hba : b.isAlive
    · simp only [hba, Bool.not_true, Bool.false_eq_true, if_false]
      rw [count_filterMap_pairs b e enemies _ ?hg he]
      case hg =>
        intro x
        by_cases h1 : x.isAlive <;>
          by_cases h2 : checkCircleCollision b.position b.size x.position x.size <;>
          simp [h1, h2]
      by_cases hem : e ∈ enemies <;> by_cases hea : e.isAlive <;>
        by_cases hov : checkCircleCollision b.position b.size e.position e.size <;>
        simp [hbm, hba, hem, hea, hov]
    · simp [hba, hbm]
  · rw [if_neg hbm]
    simp [hbm]

/-- Helper: exact occurrence count for the player-vs-enemies pass (player
hitbox radius `size * 0.7`). -/
theorem playerEnemyPairs_count (player : CPlayer) (enemies : List CEnemy)
    (he : enemies.Nodup) (e : CEnemy) :
    (playerEnemyPairs player enemies).count (player, e)
      = if e ∈ enemies ∧ player.isAlive ∧ e.isAlive ∧
          checkCircleCollision player.position (player.size * 0.7) e.position e.size
        then 1 else 0 := by
  unfold playerEnemyPairs
  by_cases hpa : player.isAlive
  · rw [if_pos hpa, count_filterMap_pairs player e enemies _ ?hg he]
    case hg =>
      intro x
      split_ifs <;> simp
    by_cases hem : e ∈ enemies <;> by_cases hea : e.isAlive <;>
      by_cases hov : checkCircleCollision player.position (player.size * 0.7)
        e.position e.size <;>
      simp [hpa, hem, hea, hov]
  · rw [if_neg hpa]
    simp [hpa]

/-- Helper: exact occurrence count for the player-vs-enemy-bullets pass
(player hitbox radius `size * 0.6`). -/
theorem playerEnemyBulletPairs_count (player : CPlayer) (enemyBullets : List CEnemyBullet)
    (heb : enemyBullets.Nodup) (eb : CEnemyBullet) :
    (playerEnemyBulletPairs player enemyBullets).count (player, eb)
      = if eb ∈ enemyBullets ∧ player.isAlive ∧ eb.isAlive ∧
          checkCircleCollision player.position (player.size * 0.6) eb.position eb.size
        then 1 else 0 := by
  unfold playerEnemyBulletPairs
  by_cases hpa : player.isAlive
  · rw [if_pos hpa, count_filterMap_pairs player eb enemyBullets _ ?hg heb]
    case hg =>
      intro x
      split_ifs <;> simp
    by_cases hem : eb ∈ enemyBullets <;> by_cases hea : eb.isAlive <;>
      by_cases hov : checkCircleCollision player.position (player.size * 0.6)
        eb.position eb.size <;>
      simp [hpa, hem, hea, hov]
  · rw [if_neg hpa]
    simp [hpa]

/-- C6: per frame, `checkCollisions` reports an alive (bullet, enemy) pair
exactly once iff their circles overlap (center distance below the radius
sum), and reports no dead or non-overlapping pair; player collisions use a
hitbox scaled by 0.7 against enemies and 0.6 against enemy bullets, with
the same exactly-once-iff-overlap behaviour. -/
theorem checkCollisions_pairs_exact (player : CPlayer) (bullets : List CBullet)
    (enemies : List CEnemy) (powerUps : List CPowerUp) (enemyBullets : List CEnemyBullet)
    (hb : bullets.Nodup) (he : enemies.Nodup) (heb : enemyBullets.Nodup)
    (b : CBullet) (e : CEnemy) (eb : CEnemyBullet) :
    ((checkCollisions player bullets enemies powerUps enemyBullets).bulletEnemyCollisions.count
        (b, e)
      = if b ∈ bullets ∧ e ∈ enemies ∧ b.isAlive ∧ e.isAlive ∧
          checkCircleCollision b.position b.size e.position e.size then 1 else 0) ∧
    ((checkCollisions player bullets enemies powerUps enemyBullets).playerEnemyCollisions.count
        (player, e)
      = if e ∈ enemies ∧ player.isAlive ∧ e.isAlive ∧
          checkCircleCollision player.position (player.size * 0.7) e.position e.size
        then 1 else 0) ∧
    ((checkCollisions player bullets enemies powerUps
          enemyBullets).playerEnemyBulletCollisions.count (player, eb)
      = if eb ∈ enemyBullets ∧ player.isAlive ∧ eb.isAlive ∧
          checkCircleCollision player.position (player.size * 0.6) eb.position eb.size
        then 1 else 0) :=
  ⟨bulletEnemyPairs_count bullets enemies hb he b e,
   playerEnemyPairs_count player enemies he e,
   playerEnemyBulletPairs_count player enemyBullets heb eb⟩

/-- Witness for `checkCollisions_pairs_exact`: one bullet at the origin
against one enemy at distance 5 (overlapping), the player against the same
enemy and one enemy bullet at distance 10. -/
theorem checkCollisions_pairs_exact_witness :
    (checkCollisions ⟨⟨0, 0⟩, 20, true⟩ [⟨0, ⟨0, 0⟩, 4, true⟩] [⟨0, ⟨5, 0⟩, 15, true⟩] []
        [⟨0, ⟨10, 0⟩, 5, true⟩]).bulletEnemyCollisions.count
      (⟨0, ⟨0, 0⟩, 4, true⟩, ⟨0, ⟨5, 0⟩, 15, true⟩) = 1 ∧
    (checkCollisions ⟨⟨0, 0⟩, 20, true⟩ [⟨0, ⟨0, 0⟩, 4, true⟩] [⟨0, ⟨5, 0⟩, 15, true⟩] []
        [⟨0, ⟨10, 0⟩, 5, true⟩]).playerEnemyCollisions.count
      (⟨⟨0, 0⟩, 20, true⟩, ⟨0, ⟨5, 0⟩, 15, true⟩) = 1 ∧
    (checkCollisions ⟨⟨0, 0⟩, 20, true⟩ [⟨0, ⟨0, 0⟩, 4, true⟩] [⟨0, ⟨5, 0⟩, 15, true⟩] []
        [⟨0, ⟨10, 0⟩, 5, true⟩]).playerEnemyBulletCollisions.count
      (⟨⟨0, 0⟩, 20, true⟩, ⟨0, ⟨10, 0⟩, 5, true⟩) = 1 := by
  obtain ⟨h1, h2, h3⟩ := checkCollisions_pairs_exact ⟨⟨0, 0⟩, 20, true⟩
    [⟨0, ⟨0, 0⟩, 4, true⟩] [⟨0, ⟨5, 0⟩, 15, true⟩] [] [⟨0, ⟨10, 0⟩, 5, true⟩]
    (by simp) (by simp) (by simp)
    ⟨0, ⟨0, 0⟩, 4, true⟩ ⟨0, ⟨5, 0⟩, 15, true⟩ ⟨0, ⟨10, 0⟩, 5, true⟩
  refine ⟨?_, ?_, ?_⟩
  · rw [h1]
    norm_num [checkCircleCollision, distSq]
  · rw [h2]
    norm_num [checkCircleCollision, distSq]
  · rw [h3]
    norm_num [checkCircleCollision, distSq]

/-- C9 counterexample: a rejected spawn is dropped, not retried.  Player
near the bottom wall at `(100, 1300)`; the spawner picks `(0, 1350)`
(side 2, `r = 0`), within distance 300, so `spawnEnemy` adds no enemy —
but the wave manager had already advanced `enemiesSpawned` to 1 =
`enemyCount` of boss wave 10.  The next tick therefore returns no spawn
and ends wave 10, and the following countdown expiry starts wave 11,
spawning a wanderer: the dropped boss spawn is never retried. -/
theorem spawn_reject_not_retried_counterexample :
    spawnEnemy 2 0 ⟨100, 1300⟩ .boss_hexagon 0 1 1 0 0 0 [] = [] ∧
    (WaveManager.update 0 0 (1/60) 0 wm10AfterRejectedBossSpawn).1 = none ∧
    ((WaveManager.update 0 0 (1/60) 0 wm10AfterRejectedBossSpawn).2).state.betweenWaves
      = true ∧
    (WaveManager.update 0 0 6 0
      ((WaveManager.update 0 0 (1/60) 0 wm10AfterRejectedBossSpawn).2)).1
      = some .wanderer := by
  refine ⟨?_, ?_, ?_, ?_⟩
  · norm_num [spawnEnemy, spawnPosition, distSq]
  · norm_num [WaveManager.update, wm10AfterRejectedBossSpawn, WaveManager.endWave,
      getWaveConfig]
  · norm_num [WaveManager.update, wm10AfterRejectedBossSpawn, WaveManager.endWave,
      getWaveConfig]
  · norm_num [WaveManager.update, wm10AfterRejectedBossSpawn, WaveManager.endWave,
      WaveManager.startNextWave, WaveManager.getNextEnemyToSpawn, getWaveConfig,
      pickWeightedLoop, enemyTypeWeight]

/-- C9 (amended): a spawn attempt at distance below 300 from the player is
rejected with the enemy collection unchanged; the rejected attempt is not
re-queued — the wave manager merely makes fresh attempts on later ticks
for the wave's remaining spawn budget (a tick with unspawned enemies and
an elapsed spawn delay hands out a new enemy), and once the budget is
exhausted (as after a rejected final spawn of a wave) no later tick of
that wave returns a spawn. -/
theorem spawn_reject_leaves_enemies_unchanged (side : ℕ) (r : ℚ) (playerPos : Vec)
    (type : EnemyType) (eid : ℕ) (sm rCos rSin rShoot rTarget : ℚ) (enemies : List Enemy)
    (hclose : distSq (spawnPosition side r) playerPos < 300 ^ 2) :
    spawnEnemy side r playerPos type eid sm rCos rSin rShoot rTarget enemies = enemies ∧
    (∀ (wm : WaveManager) (cfg : WaveConfig) (rand nowT dt : ℚ) (n : ℕ),
      wm.currentConfig = some cfg → wm.state.betweenWaves = false →
      wm.state.isActive = true → wm.state.enemiesSpawned < cfg.enemyCount →
      cfg.enemyTypes ≠ [] → cfg.spawnDelay ≤ wm.spawnTimer + dt →
      (WaveManager.update rand nowT dt n wm).1.isSome = true) ∧
    (∀ (wm : WaveManager) (cfg : WaveConfig) (rand nowT dt : ℚ) (n : ℕ),
      wm.currentConfig = some cfg → wm.state.betweenWaves = false →
      cfg.enemyCount ≤ wm.state.enemiesSpawned →
      (WaveManager.update rand nowT dt n wm).1 = none) := by
  refine ⟨?_, ?_, ?_⟩
  · unfold spawnEnemy
    rw [if_pos hclose]
  · intro wm cfg rand nowT dt n hcfg hbw hact hlt hne hdelay
    unfold WaveManager.update
    rw [hbw]
    simp only [Bool.false_eq_true, if_false, hcfg]
    rw [if_pos hact, if_neg (by omega), if_pos hdelay]
    unfold WaveManager.getNextEnemyToSpawn
    simp only [hcfg]
    rw [if_neg (by omega)]
    cases hpick : pickWeightedLoop (rand * (cfg.enemyTypes.map enemyTypeWeight).sum)
        cfg.enemyTypes
    · cases htys : cfg.enemyTypes with
      | nil => exact absurd htys hne
      | cons t ts => simp [hpick, htys]
    · simp [hpick]
  · intro wm cfg rand nowT dt n hcfg hbw hge
    unfold WaveManager.update
    rw [hbw]
    simp only [Bool.false_eq_true, if_false, hcfg]
    by_cases hact : wm.state.isActive
    · rw [if_pos hact, if_pos hge]
      by_cases hn : n = 0
      · rw [if_pos hn]
      · rw [if_neg hn]
    · rw [if_neg hact]

/-- Witness for `spawn_reject_leaves_enemies_unchanged`: the rejected
boss-wave spawn leaves the empty collection empty, and the exhausted wave
10 budget yields no spawn on the next tick. -/
theorem spawn_reject_leaves_enemies_unchanged_witness :
    spawnEnemy 2 0 ⟨100, 1300⟩ EnemyType.wanderer 0 1 1 0 0 0 [] = [] ∧
    (WaveManager.update 0 0 1 0 wm10AfterRejectedBossSpawn).1 = none := by
  have h := spawn_reject_leaves_enemies_unchanged 2 0 ⟨100, 1300⟩ .wanderer 0 1 1 0 0 0 []
    (by norm_num [spawnPosition, distSq])
  refine ⟨h.1, ?_⟩
  exact h.2.2 wm10AfterRejectedBossSpawn (getWaveConfig 10) 0 0 1 0 rfl rfl
    (by norm_num [getWaveConfig, wm10AfterRejectedBossSpawn])

/-- Witness for `temporary_grants_stack`: piercing granted 10 s and then
5 s from an empty ledger leaves 15 s remaining. -/
theorem temporary_grants_stack_witness :
    ((PlayerPowerUpState.empty.addPowerUp .piercing 10 false).addPowerUp .piercing 5
        false).getRemainingTime .piercing = JTime.fin (10 + 5) :=
  temporary_grants_stack PlayerPowerUpState.empty .piercing 10 5 rfl rfl
    (by norm_num) (by norm_num)
